import Mathlib

set_option maxRecDepth 8000

/-!
Verification development for the rubix cube engine declared in `src/rubix_cube.h`
(repository `theyoyojo/rubix`).

The repository ships only the header: the enumerations, the piece/cube/move/scramble
structures, the six face-extraction macros, the solved-cube literal and the prototypes
of every library function.  The enumerations, the face-extraction tables and the solved
literal are translated here directly from that header.  The bodies of the library
functions (`rubix_cube_rotate_face`, move application, the scramble generator, the
equivalence checker, ...) are not in the repository sources, so they are modelled from
the specification, as flagged by the doc comment of each such definition.

Coordinate conventions, fixed by the header's face macros:
a cube is `planes[3][9]`; plane 0 is the front slice, plane 2 the back slice;
inside a plane, index `i` has column `x = i % 3` (0 = left, 2 = right) and
row `r = i / 3` (row 0 is the top row, row 2 the bottom row).
A piece's color array is indexed by the square indices
0 = top, 1 = front, 2 = right, 3 = left, 4 = back, 5 = bottom.
-/

namespace Rubix

/-- Sticker colors, mirroring `enum rubix_cube_color` (`RUBIX_CUBE_COLOR_*`). -/
inductive RubixCubeColor
  | null | white | red | blue | green | orange | yellow
  deriving DecidableEq, Repr

/-- A piece is an array of 6 colors indexed by square index, mirroring
`struct rubix_cube_piece`. -/
abbrev RubixCubePiece := Fin 6 → RubixCubeColor

/-- A cube is 3 planes of 9 pieces, mirroring `struct rubix_cube`. -/
abbrev RubixCube := Fin 3 → Fin 9 → RubixCubePiece

/-- The six rotatable faces of the cube (square indices 0-5 of the header:
`RUBIX_CUBE_SQUARE_TOP` .. `RUBIX_CUBE_SQUARE_BOTTOM`). -/
inductive RubixCubeFaceId
  | top | front | right | left | back | bottom
  deriving DecidableEq, Repr, Fintype

/-- Rotation amounts, mirroring `enum rubix_cube_face_rotation`. -/
inductive RubixCubeFaceRotation
  | clockwise | counterclockwise | double
  deriving DecidableEq, Repr, Fintype

/-- Square index constants from the header (`RUBIX_CUBE_SQUARE_* = RUBIX_CUBE_SIDE_* - 1`). -/
def RUBIX_CUBE_SQUARE_TOP : Fin 6 := 0

def RUBIX_CUBE_SQUARE_FRONT : Fin 6 := 1

def RUBIX_CUBE_SQUARE_RIGHT : Fin 6 := 2

def RUBIX_CUBE_SQUARE_LEFT : Fin 6 := 3

def RUBIX_CUBE_SQUARE_BACK : Fin 6 := 4

def RUBIX_CUBE_SQUARE_BOTTOM : Fin 6 := 5

/-- A position of a piece inside the cube: (plane, index). -/
abbrev PiecePos := Fin 3 × Fin 9

/-- Modelled from the spec: membership of a (plane, index) position in the 9-piece
layer of a face, derived from the header's face macros (top face reads indices 0-2 of
every plane, front face reads plane 0, right face reads index column {2,5,8}, ...). -/
def inLayer (f : RubixCubeFaceId) (q : PiecePos) : Bool :=
  match f with
  | .top => decide (q.2.val ≤ 2)
  | .front => decide (q.1.val = 0)
  | .right => decide (q.2.val % 3 = 2)
  | .left => decide (q.2.val % 3 = 0)
  | .back => decide (q.1.val = 2)
  | .bottom => decide (6 ≤ q.2.val)

/-- The center position of each face's layer. -/
def faceCenter (f : RubixCubeFaceId) : PiecePos :=
  match f with
  | .top => (1, 1)
  | .front => (0, 4)
  | .right => (1, 5)
  | .left => (1, 3)
  | .back => (2, 4)
  | .bottom => (1, 7)

/-- Modelled from the spec: the 8-piece outer ring of a face (its layer minus its
center), the two quadsets rotated by `rubix_cube_rotate_face`; the spec states the
center is unaffected structurally. -/
def inRing (f : RubixCubeFaceId) (q : PiecePos) : Bool :=
  inLayer f q && decide (q ≠ faceCenter f)

/-- Modelled from the spec: the clockwise quarter-turn position permutation of a
face's ring (clockwise as seen by an observer outside that face), written as an
explicit table over the header's (plane, index) addressing.  Each face's 4 corner
positions and 4 edge positions form one 4-cycle each; positions outside the ring are
fixed.  The tables are derived from the face-macro geometry quoted in the module
comment, e.g. a clockwise top turn carries the right column of the top layer onto
the front row of the top layer. -/
def facePosDst (f : RubixCubeFaceId) (q : PiecePos) : PiecePos :=
  match f with
  | .top =>
    match q.1.val, q.2.val with
    | 0, 0 => (2, 0)
    | 2, 0 => (2, 2)
    | 2, 2 => (0, 2)
    | 0, 2 => (0, 0)
    | 0, 1 => (1, 0)
    | 1, 0 => (2, 1)
    | 2, 1 => (1, 2)
    | 1, 2 => (0, 1)
    | _, _ => q
  | .front =>
    match q.1.val, q.2.val with
    | 0, 0 => (0, 2)
    | 0, 2 => (0, 8)
    | 0, 8 => (0, 6)
    | 0, 6 => (0, 0)
    | 0, 1 => (0, 5)
    | 0, 5 => (0, 7)
    | 0, 7 => (0, 3)
    | 0, 3 => (0, 1)
    | _, _ => q
  | .right =>
    match q.1.val, q.2.val with
    | 0, 2 => (2, 2)
    | 2, 2 => (2, 8)
    | 2, 8 => (0, 8)
    | 0, 8 => (0, 2)
    | 1, 2 => (2, 5)
    | 2, 5 => (1, 8)
    | 1, 8 => (0, 5)
    | 0, 5 => (1, 2)
    | _, _ => q
  | .left =>
    match q.1.val, q.2.val with
    | 0, 0 => (0, 6)
    | 0, 6 => (2, 6)
    | 2, 6 => (2, 0)
    | 2, 0 => (0, 0)
    | 1, 0 => (0, 3)
    | 0, 3 => (1, 6)
    | 1, 6 => (2, 3)
    | 2, 3 => (1, 0)
    | _, _ => q
  | .back =>
    match q.1.val, q.2.val with
    | 2, 0 => (2, 6)
    | 2, 6 => (2, 8)
    | 2, 8 => (2, 2)
    | 2, 2 => (2, 0)
    | 2, 1 => (2, 3)
    | 2, 3 => (2, 7)
    | 2, 7 => (2, 5)
    | 2, 5 => (2, 1)
    | _, _ => q
  | .bottom =>
    match q.1.val, q.2.val with
    | 0, 6 => (0, 8)
    | 0, 8 => (2, 8)
    | 2, 8 => (2, 6)
    | 2, 6 => (0, 6)
    | 0, 7 => (1, 8)
    | 1, 8 => (2, 7)
    | 2, 7 => (1, 6)
    | 1, 6 => (0, 7)
    | _, _ => q

/-- Modelled from the spec: how a clockwise quarter turn of a face carries each
absolute square direction of a rotating piece to a new absolute direction (the
per-piece color remapping paired with the position permutation).  The face's own
direction and its opposite are fixed: rotation about the face axis does not change
which color faces that axis. -/
def faceDirDst (f : RubixCubeFaceId) (s : Fin 6) : Fin 6 :=
  match f with
  | .top =>
    match s.val with
    | 2 => 1
    | 1 => 3
    | 3 => 4
    | 4 => 2
    | _ => s
  | .front =>
    match s.val with
    | 0 => 2
    | 2 => 5
    | 5 => 3
    | 3 => 0
    | _ => s
  | .right =>
    match s.val with
    | 0 => 4
    | 4 => 5
    | 5 => 1
    | 1 => 0
    | _ => s
  | .left =>
    match s.val with
    | 0 => 1
    | 1 => 5
    | 5 => 4
    | 4 => 0
    | _ => s
  | .back =>
    match s.val with
    | 0 => 3
    | 3 => 5
    | 5 => 2
    | 2 => 0
    | _ => s
  | .bottom =>
    match s.val with
    | 1 => 2
    | 2 => 4
    | 4 => 3
    | 3 => 1
    | _ => s

/-- Modelled from the spec: for a rotation of face `f` by amount `r`, the pre-move
ring position of the piece that ends up at a given ring position (the inverse of the
rotation's position permutation; a clockwise quarter turn's inverse is the clockwise
table applied three times, a counterclockwise turn's inverse is the table itself,
a half turn is the table applied twice and is self-inverse). -/
def rotSrcPos (f : RubixCubeFaceId) (r : RubixCubeFaceRotation) (q : PiecePos) : PiecePos :=
  match r with
  | .clockwise => facePosDst f (facePosDst f (facePosDst f q))
  | .counterclockwise => facePosDst f q
  | .double => facePosDst f (facePosDst f q)

/-- Modelled from the spec: for a rotation of face `f` by amount `r`, the pre-move
absolute direction that now faces a given absolute direction on a rotated piece. -/
def rotSrcDir (f : RubixCubeFaceId) (r : RubixCubeFaceRotation) (s : Fin 6) : Fin 6 :=
  match r with
  | .clockwise => faceDirDst f (faceDirDst f (faceDirDst f s))
  | .counterclockwise => faceDirDst f s
  | .double => faceDirDst f (faceDirDst f s)

/-- Modelled from the spec: the body of `rubix_cube_rotate_face` is not in the
repository sources (the header only declares it).  Per spec section 4.2 it permutes
the 8 ring pieces of the face by the quarter/half-turn cyclic permutation and
re-derives each moved piece's exposed colors, as one atomic step computed from the
pre-move state; the face's center piece and all pieces outside the face's layer are
untouched.  The sticker now at ring position `q` facing direction `s` is the pre-move
sticker of the predecessor piece `rotSrcPos f r q` at direction `rotSrcDir f r s`. -/
def rubix_cube_rotate_face (c : RubixCube) (f : RubixCubeFaceId)
    (r : RubixCubeFaceRotation) : RubixCube :=
  fun p i s =>
    if inRing f (p, i) then
      c (rotSrcPos f r (p, i)).1 (rotSrcPos f r (p, i)).2 (rotSrcDir f r s)
    else c p i s

/-- Helper to build a piece from its 6 colors in square-index order
(top, front, right, left, back, bottom), the scheme used throughout the
header's solved literal. -/
def mkPiece (c0 c1 c2 c3 c4 c5 : RubixCubeColor) : RubixCubePiece :=
  fun s =>
    match s.val with
    | 0 => c0
    | 1 => c1
    | 2 => c2
    | 3 => c3
    | 4 => c4
    | _ => c5

/-- The solved cube constant, transcribed piece by piece from the header's
`RUBIX_CUBE_SOLVED_LITERAL` (the identity): 27 pieces, 3 planes of 9, each piece's
colors listed in square-index order top, front, right, left, back, bottom. -/
def RUBIX_CUBE_SOLVED_LITERAL : RubixCube :=
  fun p i =>
    match p.val, i.val with
    | 0, 0 => mkPiece .white .red .null .green .null .null
    | 0, 1 => mkPiece .white .red .null .null .null .null
    | 0, 2 => mkPiece .white .red .blue .null .null .null
    | 0, 3 => mkPiece .null .red .null .green .null .null
    | 0, 4 => mkPiece .null .red .null .null .null .null
    | 0, 5 => mkPiece .null .red .blue .null .null .null
    | 0, 6 => mkPiece .null .red .null .green .null .yellow
    | 0, 7 => mkPiece .null .red .null .null .null .yellow
    | 0, 8 => mkPiece .null .red .blue .null .null .yellow
    | 1, 0 => mkPiece .white .null .null .green .null .null
    | 1, 1 => mkPiece .white .null .null .null .null .null
    | 1, 2 => mkPiece .white .null .blue .null .null .null
    | 1, 3 => mkPiece .null .null .null .green .null .null
    | 1, 4 => mkPiece .null .null .null .null .null .null
    | 1, 5 => mkPiece .null .null .blue .null .null .null
    | 1, 6 => mkPiece .null .null .null .green .null .yellow
    | 1, 7 => mkPiece .null .null .null .null .null .yellow
    | 1, 8 => mkPiece .null .null .blue .null .null .yellow
    | 2, 0 => mkPiece .white .null .null .green .orange .null
    | 2, 1 => mkPiece .white .null .null .null .orange .null
    | 2, 2 => mkPiece .white .null .blue .null .orange .null
    | 2, 3 => mkPiece .null .null .null .green .orange .null
    | 2, 4 => mkPiece .null .null .null .null .orange .null
    | 2, 5 => mkPiece .null .null .blue .null .orange .null
    | 2, 6 => mkPiece .null .null .null .green .orange .yellow
    | 2, 7 => mkPiece .null .null .null .null .orange .yellow
    | _, _ => mkPiece .null .null .blue .null .orange .yellow

/-- Modelled from the spec: the body of `rubix_cube_generate_solved` is not in the
repository sources; its header comment says it returns a copy of the solved cube
literal. -/
def rubix_cube_generate_solved : RubixCube := RUBIX_CUBE_SOLVED_LITERAL

/-- The 9 stickers of the top face in visual raster order, transcribed from the
header macro `RUBIX_CUBE_GET_TOP_FACE`. -/
def RUBIX_CUBE_GET_TOP_FACE (c : RubixCube) : List RubixCubeColor :=
  [c 2 0 RUBIX_CUBE_SQUARE_TOP, c 2 1 RUBIX_CUBE_SQUARE_TOP, c 2 2 RUBIX_CUBE_SQUARE_TOP,
   c 1 0 RUBIX_CUBE_SQUARE_TOP, c 1 1 RUBIX_CUBE_SQUARE_TOP, c 1 2 RUBIX_CUBE_SQUARE_TOP,
   c 0 0 RUBIX_CUBE_SQUARE_TOP, c 0 1 RUBIX_CUBE_SQUARE_TOP, c 0 2 RUBIX_CUBE_SQUARE_TOP]

/-- The 9 stickers of the front face, transcribed from `RUBIX_CUBE_GET_FRONT_FACE`. -/
def RUBIX_CUBE_GET_FRONT_FACE (c : RubixCube) : List RubixCubeColor :=
  [c 0 0 RUBIX_CUBE_SQUARE_FRONT, c 0 1 RUBIX_CUBE_SQUARE_FRONT, c 0 2 RUBIX_CUBE_SQUARE_FRONT,
   c 0 3 RUBIX_CUBE_SQUARE_FRONT, c 0 4 RUBIX_CUBE_SQUARE_FRONT, c 0 5 RUBIX_CUBE_SQUARE_FRONT,
   c 0 6 RUBIX_CUBE_SQUARE_FRONT, c 0 7 RUBIX_CUBE_SQUARE_FRONT, c 0 8 RUBIX_CUBE_SQUARE_FRONT]

/-- The 9 stickers of the right face, transcribed from `RUBIX_CUBE_GET_RIGHT_FACE`. -/
def RUBIX_CUBE_GET_RIGHT_FACE (c : RubixCube) : List RubixCubeColor :=
  [c 0 2 RUBIX_CUBE_SQUARE_RIGHT, c 1 2 RUBIX_CUBE_SQUARE_RIGHT, c 2 2 RUBIX_CUBE_SQUARE_RIGHT,
   c 0 5 RUBIX_CUBE_SQUARE_RIGHT, c 1 5 RUBIX_CUBE_SQUARE_RIGHT, c 2 5 RUBIX_CUBE_SQUARE_RIGHT,
   c 0 8 RUBIX_CUBE_SQUARE_RIGHT, c 1 8 RUBIX_CUBE_SQUARE_RIGHT, c 2 8 RUBIX_CUBE_SQUARE_RIGHT]

/-- The 9 stickers of the left face, transcribed from `RUBIX_CUBE_GET_LEFT_FACE`. -/
def RUBIX_CUBE_GET_LEFT_FACE (c : RubixCube) : List RubixCubeColor :=
  [c 2 0 RUBIX_CUBE_SQUARE_LEFT, c 1 0 RUBIX_CUBE_SQUARE_LEFT, c 0 0 RUBIX_CUBE_SQUARE_LEFT,
   c 2 3 RUBIX_CUBE_SQUARE_LEFT, c 1 3 RUBIX_CUBE_SQUARE_LEFT, c 0 3 RUBIX_CUBE_SQUARE_LEFT,
   c 2 6 RUBIX_CUBE_SQUARE_LEFT, c 1 6 RUBIX_CUBE_SQUARE_LEFT, c 0 6 RUBIX_CUBE_SQUARE_LEFT]

/-- The 9 stickers of the back face, transcribed from `RUBIX_CUBE_GET_BACK_FACE`. -/
def RUBIX_CUBE_GET_BACK_FACE (c : RubixCube) : List RubixCubeColor :=
  [c 2 2 RUBIX_CUBE_SQUARE_BACK, c 2 1 RUBIX_CUBE_SQUARE_BACK, c 2 0 RUBIX_CUBE_SQUARE_BACK,
   c 2 5 RUBIX_CUBE_SQUARE_BACK, c 2 4 RUBIX_CUBE_SQUARE_BACK, c 2 3 RUBIX_CUBE_SQUARE_BACK,
   c 2 8 RUBIX_CUBE_SQUARE_BACK, c 2 7 RUBIX_CUBE_SQUARE_BACK, c 2 6 RUBIX_CUBE_SQUARE_BACK]

/-- The 9 stickers of the bottom face, transcribed from `RUBIX_CUBE_GET_BOTTOM_FACE`. -/
def RUBIX_CUBE_GET_BOTTOM_FACE (c : RubixCube) : List RubixCubeColor :=
  [c 0 6 RUBIX_CUBE_SQUARE_BOTTOM, c 0 7 RUBIX_CUBE_SQUARE_BOTTOM, c 0 8 RUBIX_CUBE_SQUARE_BOTTOM,
   c 1 6 RUBIX_CUBE_SQUARE_BOTTOM, c 1 7 RUBIX_CUBE_SQUARE_BOTTOM, c 1 8 RUBIX_CUBE_SQUARE_BOTTOM,
   c 2 6 RUBIX_CUBE_SQUARE_BOTTOM, c 2 7 RUBIX_CUBE_SQUARE_BOTTOM, c 2 8 RUBIX_CUBE_SQUARE_BOTTOM]

/-- Dispatch a face identifier to the corresponding face-extraction table. -/
def rubix_cube_get_face (c : RubixCube) (f : RubixCubeFaceId) : List RubixCubeColor :=
  match f with
  | .top => RUBIX_CUBE_GET_TOP_FACE c
  | .front => RUBIX_CUBE_GET_FRONT_FACE c
  | .right => RUBIX_CUBE_GET_RIGHT_FACE c
  | .left => RUBIX_CUBE_GET_LEFT_FACE c
  | .back => RUBIX_CUBE_GET_BACK_FACE c
  | .bottom => RUBIX_CUBE_GET_BOTTOM_FACE c

/-- Modelled from the spec: the body of `rubix_cube_equivelence_check` is not in the
repository sources; per the header comment and spec it returns nonzero iff the two
cubes have identical color values for every piece at every (plane, index). -/
def rubix_cube_equivelence_check (a b : RubixCube) : Bool :=
  (List.finRange 3).all fun p =>
    (List.finRange 9).all fun i =>
      (List.finRange 6).all fun s => decide (a p i s = b p i s)

/-- Modelled from the spec: the body of `rubix_cube_is_solved` is not in the
repository sources; per the spec it is the equivalence check against the solved
constant. -/
def rubix_cube_is_solved (c : RubixCube) : Bool :=
  rubix_cube_equivelence_check c rubix_cube_generate_solved

/-- A move is a (face, rotation amount) pair, mirroring `struct rubix_cube_move`. -/
structure RubixCubeMove where
  side : RubixCubeFaceId
  rotation : RubixCubeFaceRotation
  deriving DecidableEq, Repr

/-- Modelled from the spec: the algebraic inverse of a rotation amount used by
`rubix_cube_unapply_move`: clockwise-90 and counterclockwise-90 invert each other
and the 180-degree amount is self-inverse. -/
def rubix_cube_face_rotation_inverse : RubixCubeFaceRotation → RubixCubeFaceRotation
  | .clockwise => .counterclockwise
  | .counterclockwise => .clockwise
  | .double => .double

/-- Modelled from the spec: the body of `rubix_cube_apply_move` is not in the
repository sources; per spec section 4.3 it is `rotate_face` at the move's face and
amount. -/
def rubix_cube_apply_move (c : RubixCube) (m : RubixCubeMove) : RubixCube :=
  rubix_cube_rotate_face c m.side m.rotation

/-- Modelled from the spec: the body of `rubix_cube_unapply_move` is not in the
repository sources; per spec section 4.3 it applies the amount's algebraic inverse
at the move's face. -/
def rubix_cube_unapply_move (c : RubixCube) (m : RubixCubeMove) : RubixCube :=
  rubix_cube_rotate_face c m.side (rubix_cube_face_rotation_inverse m.rotation)

/-- Apply an ordered list of moves, first move first. -/
def rubix_cube_apply_moves (c : RubixCube) (ms : List RubixCubeMove) : RubixCube :=
  ms.foldl rubix_cube_apply_move c

/-- Modelled from the spec: unapplying a move list applies each move's inverse in
strictly reverse order. -/
def rubix_cube_unapply_moves (c : RubixCube) (ms : List RubixCubeMove) : RubixCube :=
  ms.reverse.foldl rubix_cube_unapply_move c

/-- A scramble holds its realized move sequence and the seed that generated it,
mirroring `struct rubix_cube_scramble` (the size/capacity bookkeeping of the C
growable array is subsumed by the Lean list). -/
structure RubixCubeScramble where
  moves : List RubixCubeMove
  seed : Nat

/-- Modelled from the spec: `rubix_cube_apply_scramble` applies each stored move in
stored order. -/
def rubix_cube_apply_scramble (c : RubixCube) (sc : RubixCubeScramble) : RubixCube :=
  rubix_cube_apply_moves c sc.moves

/-- Modelled from the spec: `rubix_cube_unapply_scramble` applies each stored move's
inverse in strictly reverse order. -/
def rubix_cube_unapply_scramble (c : RubixCube) (sc : RubixCubeScramble) : RubixCube :=
  rubix_cube_unapply_moves c sc.moves

/-- The default scramble move count, from the header's
`RUBIX_CUBE_SCRAMBLE_INTENSITY`. -/
def RUBIX_CUBE_SCRAMBLE_INTENSITY : Nat := 50

/-- Modelled from the spec: one step of the seeded pseudo-random stream backing
move generation (a 64-bit linear congruential step; the spec allows any equivalent
deterministic mapping). -/
def rubix_cube_rng_step (s : Nat) : Nat :=
  (6364136223846793005 * s + 1442695040888963407) % (2 ^ 64)

/-- Map a face index 0-5 to the face identifier, in square-index order. -/
def faceOfIdx : Nat → RubixCubeFaceId
  | 0 => .top
  | 1 => .front
  | 2 => .right
  | 3 => .left
  | 4 => .back
  | _ => .bottom

/-- Map a rotation index 0-2 to the rotation amount, in enum order. -/
def rotOfIdx : Nat → RubixCubeFaceRotation
  | 0 => .clockwise
  | 1 => .counterclockwise
  | _ => .double

/-- Modelled from the spec: map one pseudo-random stream value into the 18-element
move space, face = value mod 6, amount = (value / 6) mod 3. -/
def rubix_cube_move_of_value (v : Nat) : RubixCubeMove :=
  ⟨faceOfIdx (v % 6), rotOfIdx (v / 6 % 3)⟩

/-- Stream-threading helper for seeded move generation. -/
def genMovesAux : Nat → Nat → List RubixCubeMove
  | _, 0 => []
  | s, n + 1 =>
    rubix_cube_move_of_value (rubix_cube_rng_step s) :: genMovesAux (rubix_cube_rng_step s) n

/-- Modelled from the spec: the body of `rubix_cube_generate_moves_from_seed` is not
in the repository sources; per spec section 4.4 it is a pure function of (seed, n):
the seed initializes a pseudo-random stream once and each of the n moves is derived
by stepping that stream and mapping its output into the 18-element move space. -/
def rubix_cube_generate_moves_from_seed (seed : Nat) (n : Nat) : List RubixCubeMove :=
  genMovesAux seed n

/-- Modelled from the spec: the body of `rubix_cube_generate_scrambled` is not in
the repository sources; per the spec it applies the default count
(`RUBIX_CUBE_SCRAMBLE_INTENSITY`) of seed-generated moves to a fresh solved cube. -/
def rubix_cube_generate_scrambled (seed : Nat) : RubixCube :=
  rubix_cube_apply_moves rubix_cube_generate_solved
    (rubix_cube_generate_moves_from_seed seed RUBIX_CUBE_SCRAMBLE_INTENSITY)

/-- Modelled from the spec: the body of `rubix_cube_solve_scrambled_from_seed` is
not in the repository sources; per the header comment and spec section 4.5 it
regenerates the default-length move sequence for the seed and applies each move's
inverse in reverse order. -/
def rubix_cube_solve_scrambled_from_seed (c : RubixCube) (seed : Nat) : RubixCube :=
  rubix_cube_unapply_moves c
    (rubix_cube_generate_moves_from_seed seed RUBIX_CUBE_SCRAMBLE_INTENSITY)

/-- Map a raw `RubixCubeSide` enum value (1 = A .. 6 = F, square index value + 1)
to the face identifier; only meaningful for values 1-6. -/
def faceOfSideEnum (side : Nat) : RubixCubeFaceId := faceOfIdx (side - 1)

/-- Modelled from the spec: the body of `rubix_cube_rotate_face` is not in the
repository sources and C callers may pass raw integers for its `RubixCubeSide` and
`RubixCubeFaceRotation` enum parameters.  Per spec sections 4.2 and 7, a face or
rotation-amount value outside the defined enumeration must be rejected
deterministically: the cube is left unmutated and an invalid-input condition is
signalled to the caller (the returned flag is `false`) instead of indexing out of
table bounds.  Valid inputs are the six faces `RUBIX_CUBE_SIDE_A` .. `RUBIX_CUBE_SIDE_F`
(raw values 1-6) with a rotation amount 0-2. -/
def rubix_cube_rotate_face_raw (c : RubixCube) (side rot : Nat) : RubixCube × Bool :=
  if 1 ≤ side ∧ side ≤ 6 ∧ rot ≤ 2 then
    (rubix_cube_rotate_face c (faceOfSideEnum side) (rotOfIdx rot), true)
  else (c, false)

/-- All 27 piece positions of the cube. -/
def allPiecePositions : List PiecePos :=
  (List.finRange 3).flatMap fun p => (List.finRange 9).map fun i => (p, i)

/-- The piece stored at a (plane, index) position. -/
def pieceAt (c : RubixCube) (q : PiecePos) : RubixCubePiece := c q.1 q.2

/-- The multiset of non-null colors carried by one piece. -/
def rubix_cube_piece_colors (pc : RubixCubePiece) : Multiset RubixCubeColor :=
  ↑((((List.finRange 6).map pc).filter fun col => decide (col ≠ RubixCubeColor.null)))

/-- The multiset of all non-null sticker colors of the cube, taken across all its
pieces. -/
def rubix_cube_sticker_multiset (c : RubixCube) : Multiset RubixCubeColor :=
  (allPiecePositions.map fun q => rubix_cube_piece_colors (pieceAt c q)).sum

/-- The number of non-null color slots of a piece: 3 for a corner, 2 for an edge,
1 for a center, 0 for the interior piece. -/
def rubix_cube_piece_color_count (pc : RubixCubePiece) : Nat :=
  (List.finRange 6).countP fun s => decide (pc s ≠ RubixCubeColor.null)

/-- The pre-move position of the piece that a rotation of face `f` by amount `r`
puts at a given position (identity outside the face's ring). -/
def posSrc (f : RubixCubeFaceId) (r : RubixCubeFaceRotation) (q : PiecePos) : PiecePos :=
  if inRing f q then rotSrcPos f r q else q

/-- The multiset of the 27 pieces' non-null color counts (the corner/edge/center
class census of the cube). -/
def rubix_cube_class_multiset (c : RubixCube) : Multiset Nat :=
  ↑(allPiecePositions.map fun q => rubix_cube_piece_color_count (pieceAt c q))

/-- All 18 moves: 6 faces times 3 rotation amounts. -/
def RUBIX_CUBE_ALL_MOVES : List RubixCubeMove :=
  [RubixCubeFaceId.top, .front, .right, .left, .back, .bottom].flatMap fun f =>
    [RubixCubeFaceRotation.clockwise, .counterclockwise, .double].map fun r => ⟨f, r⟩

/-- The canonical color of each square direction in the solved constant:
top = white, front = red, right = blue, left = green, back = orange,
bottom = yellow. -/
def rubix_cube_canonical_color : Fin 6 → RubixCubeColor :=
  fun s =>
    match s.val with
    | 0 => .white
    | 1 => .red
    | 2 => .blue
    | 3 => .green
    | 4 => .orange
    | _ => .yellow

/-- The 9 (plane, index, side) triples each face-extraction macro reads, in the
macro's raster order, transcribed from the header. -/
def faceTriples (f : RubixCubeFaceId) : List (Fin 3 × Fin 9 × Fin 6) :=
  match f with
  | .top =>
    [(2, 0, 0), (2, 1, 0), (2, 2, 0), (1, 0, 0), (1, 1, 0), (1, 2, 0),
     (0, 0, 0), (0, 1, 0), (0, 2, 0)]
  | .front =>
    [(0, 0, 1), (0, 1, 1), (0, 2, 1), (0, 3, 1), (0, 4, 1), (0, 5, 1),
     (0, 6, 1), (0, 7, 1), (0, 8, 1)]
  | .right =>
    [(0, 2, 2), (1, 2, 2), (2, 2, 2), (0, 5, 2), (1, 5, 2), (2, 5, 2),
     (0, 8, 2), (1, 8, 2), (2, 8, 2)]
  | .left =>
    [(2, 0, 3), (1, 0, 3), (0, 0, 3), (2, 3, 3), (1, 3, 3), (0, 3, 3),
     (2, 6, 3), (1, 6, 3), (0, 6, 3)]
  | .back =>
    [(2, 2, 4), (2, 1, 4), (2, 0, 4), (2, 5, 4), (2, 4, 4), (2, 3, 4),
     (2, 8, 4), (2, 7, 4), (2, 6, 4)]
  | .bottom =>
    [(0, 6, 5), (0, 7, 5), (0, 8, 5), (1, 6, 5), (1, 7, 5), (1, 8, 5),
     (2, 6, 5), (2, 7, 5), (2, 8, 5)]

/-- The 54 (plane, index, side) triples read by the six face macros together. -/
def allFaceTriples : List (Fin 3 × Fin 9 × Fin 6) :=
  faceTriples .top ++ faceTriples .front ++ faceTriples .right ++
    faceTriples .left ++ faceTriples .back ++ faceTriples .bottom

/-! Finite permutation facts about the rotation tables, settled by computation. -/

/-- Rotations map the face's ring onto itself. -/
lemma ring_src (f : RubixCubeFaceId) (r : RubixCubeFaceRotation) (q : PiecePos) :
    inRing f (rotSrcPos f r q) = inRing f q := by
  revert f r q; decide

/-- The position source map of a rotation amount and of its inverse amount cancel. -/
lemma src_src_inv (f : RubixCubeFaceId) (r : RubixCubeFaceRotation) (q : PiecePos) :
    rotSrcPos f r (rotSrcPos f (rubix_cube_face_rotation_inverse r) q) = q := by
  revert f r q; decide

/-- The direction source map of a rotation amount and of its inverse amount cancel. -/
lemma dir_src_inv (f : RubixCubeFaceId) (r : RubixCubeFaceRotation) (s : Fin 6) :
    rotSrcDir f r (rotSrcDir f (rubix_cube_face_rotation_inverse r) s) = s := by
  revert f r s; decide

/-- Every rotation amount's position source map has order dividing 4. -/
lemma src_four (f : RubixCubeFaceId) (r : RubixCubeFaceRotation) (q : PiecePos) :
    rotSrcPos f r (rotSrcPos f r (rotSrcPos f r (rotSrcPos f r q))) = q := by
  revert f r q; decide

/-- Every rotation amount's direction source map has order dividing 4. -/
lemma dir_four (f : RubixCubeFaceId) (r : RubixCubeFaceRotation) (s : Fin 6) :
    rotSrcDir f r (rotSrcDir f r (rotSrcDir f r (rotSrcDir f r s))) = s := by
  revert f r s; decide

/-- Two clockwise quarter turns induce the half turn's position source map. -/
lemma src_cw_cw (f : RubixCubeFaceId) (q : PiecePos) :
    rotSrcPos f .clockwise (rotSrcPos f .clockwise q) = rotSrcPos f .double q := by
  revert f q; decide

/-- Two clockwise quarter turns induce the half turn's direction source map. -/
lemma dir_cw_cw (f : RubixCubeFaceId) (s : Fin 6) :
    rotSrcDir f .clockwise (rotSrcDir f .clockwise s) = rotSrcDir f .double s := by
  revert f s; decide

/-- The direction source map permutes the 6 square directions. -/
lemma dir_perm (f : RubixCubeFaceId) (r : RubixCubeFaceRotation) :
    ((List.finRange 6).map (rotSrcDir f r)).Perm (List.finRange 6) := by
  revert f r; decide

/-- The position source map permutes the 27 piece positions. -/
lemma pos_perm (f : RubixCubeFaceId) (r : RubixCubeFaceRotation) :
    ((allPiecePositions.map (posSrc f r)).Perm allPiecePositions) := by
  revert f r; decide

/-! Cancellation and composition laws of the rotation engine. -/

/-- Rotating a face and then rotating it by the inverse amount restores the cube. -/
lemma rotate_face_inverse_cancel (c : RubixCube) (f : RubixCubeFaceId)
    (r : RubixCubeFaceRotation) :
    rubix_cube_rotate_face (rubix_cube_rotate_face c f r) f
      (rubix_cube_face_rotation_inverse r) = c := by
  funext p i s
  by_cases h : inRing f (p, i) = true
  · simp [rubix_cube_rotate_face, Prod.mk.eta, ring_src, h, src_src_inv, dir_src_inv]
  · simp [rubix_cube_rotate_face, Prod.mk.eta, ring_src, h]

/-- Applying the same rotation four times restores the cube. -/
lemma rotate_face_four (c : RubixCube) (f : RubixCubeFaceId)
    (r : RubixCubeFaceRotation) :
    rubix_cube_rotate_face (rubix_cube_rotate_face (rubix_cube_rotate_face
      (rubix_cube_rotate_face c f r) f r) f r) f r = c := by
  funext p i s
  by_cases h : inRing f (p, i) = true
  · simp [rubix_cube_rotate_face, Prod.mk.eta, ring_src, h, src_four, dir_four]
  · simp [rubix_cube_rotate_face, Prod.mk.eta, ring_src, h]

/-- Two clockwise quarter turns equal one half turn. -/
lemma rotate_face_cw_cw (c : RubixCube) (f : RubixCubeFaceId) :
    rubix_cube_rotate_face (rubix_cube_rotate_face c f .clockwise) f .clockwise =
      rubix_cube_rotate_face c f .double := by
  funext p i s
  by_cases h : inRing f (p, i) = true
  · simp [rubix_cube_rotate_face, Prod.mk.eta, ring_src, h, src_cw_cw, dir_cw_cw]
  · simp [rubix_cube_rotate_face, Prod.mk.eta, ring_src, h]

/-- Unapplying a move undoes applying it. -/
lemma unapply_apply_move (c : RubixCube) (m : RubixCubeMove) :
    rubix_cube_unapply_move (rubix_cube_apply_move c m) m = c := by
  obtain ⟨f, r⟩ := m
  exact rotate_face_inverse_cancel c f r

/-- Unapplying a move list in reverse order undoes applying it in order. -/
lemma unapply_moves_apply_moves (ms : List RubixCubeMove) :
    ∀ c : RubixCube, rubix_cube_unapply_moves (rubix_cube_apply_moves c ms) ms = c := by
  induction ms with
  | nil => intro c; rfl
  | cons m tl ih =>
    intro c
    show rubix_cube_unapply_moves (rubix_cube_apply_moves (rubix_cube_apply_move c m) tl)
      (m :: tl) = c
    unfold rubix_cube_unapply_moves
    rw [List.reverse_cons, List.foldl_append]
    show rubix_cube_unapply_move
      (rubix_cube_unapply_moves (rubix_cube_apply_moves (rubix_cube_apply_move c m) tl) tl)
      m = c
    rw [ih]
    exact unapply_apply_move c m

/-! Conservation of stickers and of piece classes. -/

/-- Reindexing a piece's slots along a permutation of the 6 directions does not
change its multiset of non-null colors. -/
lemma piece_colors_comp_perm (pc : RubixCubePiece) (g : Fin 6 → Fin 6)
    (hg : ((List.finRange 6).map g).Perm (List.finRange 6)) :
    rubix_cube_piece_colors (fun s => pc (g s)) = rubix_cube_piece_colors pc := by
  unfold rubix_cube_piece_colors
  have h1 : (List.finRange 6).map (fun s => pc (g s)) = ((List.finRange 6).map g).map pc := by
    rw [List.map_map]
    rfl
  rw [h1]
  exact Multiset.coe_eq_coe.mpr ((hg.map pc).filter _)

/-- Reindexing a piece's slots along a permutation of the 6 directions does not
change its count of non-null slots. -/
lemma piece_count_comp_perm (pc : RubixCubePiece) (g : Fin 6 → Fin 6)
    (hg : ((List.finRange 6).map g).Perm (List.finRange 6)) :
    rubix_cube_piece_color_count (fun s => pc (g s)) = rubix_cube_piece_color_count pc := by
  unfold rubix_cube_piece_color_count
  rw [show (fun s => decide (pc (g s) ≠ RubixCubeColor.null)) =
      ((fun col => decide (pc col ≠ RubixCubeColor.null)) ∘ g) from rfl,
    ← List.countP_map, hg.countP_eq]

/-- After a rotation the piece at `q` is the pre-move piece at `posSrc f r q`
reindexed along a direction permutation, so it carries the same color multiset. -/
lemma piece_colors_rotate (c : RubixCube) (f : RubixCubeFaceId)
    (r : RubixCubeFaceRotation) (q : PiecePos) :
    rubix_cube_piece_colors (pieceAt (rubix_cube_rotate_face c f r) q) =
      rubix_cube_piece_colors (pieceAt c (posSrc f r q)) := by
  obtain ⟨p, i⟩ := q
  by_cases h : inRing f (p, i) = true
  · have h1 : pieceAt (rubix_cube_rotate_face c f r) (p, i) =
        fun s => pieceAt c (rotSrcPos f r (p, i)) (rotSrcDir f r s) := by
      funext s
      simp [pieceAt, rubix_cube_rotate_face, h, Prod.mk.eta]
    rw [h1]
    simp only [posSrc, h, if_true]
    exact piece_colors_comp_perm _ _ (dir_perm f r)
  · have h1 : pieceAt (rubix_cube_rotate_face c f r) (p, i) = pieceAt c (p, i) := by
      funext s
      simp [pieceAt, rubix_cube_rotate_face, h]
    rw [h1]
    simp [posSrc, h]

/-- After a rotation the piece at `q` keeps the non-null slot count of the piece
it came from. -/
lemma piece_count_rotate (c : RubixCube) (f : RubixCubeFaceId)
    (r : RubixCubeFaceRotation) (q : PiecePos) :
    rubix_cube_piece_color_count (pieceAt (rubix_cube_rotate_face c f r) q) =
      rubix_cube_piece_color_count (pieceAt c (posSrc f r q)) := by
  obtain ⟨p, i⟩ := q
  by_cases h : inRing f (p, i) = true
  · have h1 : pieceAt (rubix_cube_rotate_face c f r) (p, i) =
        fun s => pieceAt c (rotSrcPos f r (p, i)) (rotSrcDir f r s) := by
      funext s
      simp [pieceAt, rubix_cube_rotate_face, h, Prod.mk.eta]
    rw [h1]
    simp only [posSrc, h, if_true]
    exact piece_count_comp_perm _ _ (dir_perm f r)
  · have h1 : pieceAt (rubix_cube_rotate_face c f r) (p, i) = pieceAt c (p, i) := by
      funext s
      simp [pieceAt, rubix_cube_rotate_face, h]
    rw [h1]
    simp [posSrc, h]

/-- A single face rotation conserves the multiset of non-null sticker colors. -/
lemma sticker_multiset_rotate (c : RubixCube) (f : RubixCubeFaceId)
    (r : RubixCubeFaceRotation) :
    rubix_cube_sticker_multiset (rubix_cube_rotate_face c f r) =
      rubix_cube_sticker_multiset c := by
  unfold rubix_cube_sticker_multiset
  have h1 : allPiecePositions.map
      (fun q => rubix_cube_piece_colors (pieceAt (rubix_cube_rotate_face c f r) q)) =
      (allPiecePositions.map (posSrc f r)).map
        (fun q => rubix_cube_piece_colors (pieceAt c q)) := by
    rw [List.map_map]
    exact List.map_congr_left fun q _ => piece_colors_rotate c f r q
  rw [h1]
  exact List.Perm.sum_eq ((pos_perm f r).map _)

/-- A single face rotation conserves the census of piece color-count classes. -/
lemma class_multiset_rotate (c : RubixCube) (f : RubixCubeFaceId)
    (r : RubixCubeFaceRotation) :
    rubix_cube_class_multiset (rubix_cube_rotate_face c f r) =
      rubix_cube_class_multiset c := by
  unfold rubix_cube_class_multiset
  have h1 : allPiecePositions.map
      (fun q => rubix_cube_piece_color_count (pieceAt (rubix_cube_rotate_face c f r) q)) =
      (allPiecePositions.map (posSrc f r)).map
        (fun q => rubix_cube_piece_color_count (pieceAt c q)) := by
    rw [List.map_map]
    exact List.map_congr_left fun q _ => piece_count_rotate c f r q
  rw [h1]
  exact Multiset.coe_eq_coe.mpr ((pos_perm f r).map _)

/-- Any move sequence conserves the multiset of non-null sticker colors. -/
lemma sticker_multiset_apply_moves (ms : List RubixCubeMove) :
    ∀ c : RubixCube,
      rubix_cube_sticker_multiset (rubix_cube_apply_moves c ms) =
        rubix_cube_sticker_multiset c := by
  induction ms with
  | nil => intro c; rfl
  | cons m tl ih =>
    intro c
    show rubix_cube_sticker_multiset
      (rubix_cube_apply_moves (rubix_cube_apply_move c m) tl) = _
    rw [ih]
    exact sticker_multiset_rotate c m.side m.rotation

/-- Any move sequence conserves the census of piece color-count classes. -/
lemma class_multiset_apply_moves (ms : List RubixCubeMove) :
    ∀ c : RubixCube,
      rubix_cube_class_multiset (rubix_cube_apply_moves c ms) =
        rubix_cube_class_multiset c := by
  induction ms with
  | nil => intro c; rfl
  | cons m tl ih =>
    intro c
    show rubix_cube_class_multiset
      (rubix_cube_apply_moves (rubix_cube_apply_move c m) tl) = _
    rw [ih]
    exact class_multiset_rotate c m.side m.rotation

/-! The seeded move generator. -/

/-- The generator emits exactly the requested number of moves. -/
lemma genMovesAux_length : ∀ (n s : Nat), (genMovesAux s n).length = n := by
  intro n
  induction n with
  | zero => intro s; rfl
  | succ k ih => intro s; simp [genMovesAux, ih]

/-- Every move value lies in the 18-element move space. -/
lemma move_mem_all (m : RubixCubeMove) : m ∈ RUBIX_CUBE_ALL_MOVES := by
  obtain ⟨f, r⟩ := m
  cases f <;> cases r <;> decide

/-! Validation of the modelled rotation engine against the spec's concrete
scenario (spec section 8). -/

/-- Rotating the top face of the solved cube clockwise keeps the top face all
white, moves the right face's former top row (blue on the solved cube) onto the
front face's top row, and four such turns restore the solved cube exactly. -/
theorem solved_top_turn_scenario :
    RUBIX_CUBE_GET_TOP_FACE
        (rubix_cube_rotate_face rubix_cube_generate_solved .top .clockwise) =
      List.replicate 9 .white ∧
    RUBIX_CUBE_GET_FRONT_FACE
        (rubix_cube_rotate_face rubix_cube_generate_solved .top .clockwise) =
      [.blue, .blue, .blue, .red, .red, .red, .red, .red, .red] ∧
    (RUBIX_CUBE_GET_RIGHT_FACE rubix_cube_generate_solved).take 3 =
      [.blue, .blue, .blue] ∧
    rubix_cube_is_solved (rubix_cube_rotate_face (rubix_cube_rotate_face
      (rubix_cube_rotate_face (rubix_cube_rotate_face rubix_cube_generate_solved
        .top .clockwise) .top .clockwise) .top .clockwise) .top .clockwise) = true := by
  refine ⟨rfl, rfl, rfl, by decide⟩

/-! The claims. -/

/-- C1: for every cube state C and move M, unapplying M after applying M restores
exactly C, and the amount inverse pairs clockwise-90 with counterclockwise-90 and
maps the 180-degree amount to itself. -/
theorem claim_C1_move_roundtrip :
    ∀ (c : RubixCube) (m : RubixCubeMove),
      rubix_cube_unapply_move (rubix_cube_apply_move c m) m = c ∧
      rubix_cube_face_rotation_inverse .clockwise = .counterclockwise ∧
      rubix_cube_face_rotation_inverse .counterclockwise = .clockwise ∧
      rubix_cube_face_rotation_inverse .double = .double :=
  fun c m => ⟨unapply_apply_move c m, rfl, rfl, rfl⟩

/-- C2: unapplying a scramble undoes applying it for every scramble and cube;
in particular solving a seed-scrambled cube from the same seed yields the solved
cube, with the fixed default move count of 50. -/
theorem claim_C2_scramble_roundtrip :
    (∀ (sc : RubixCubeScramble) (c : RubixCube),
      rubix_cube_unapply_scramble (rubix_cube_apply_scramble c sc) sc = c) ∧
    (∀ seed : Nat,
      rubix_cube_solve_scrambled_from_seed (rubix_cube_generate_scrambled seed) seed =
        rubix_cube_generate_solved) ∧
    RUBIX_CUBE_SCRAMBLE_INTENSITY = 50 :=
  ⟨fun sc c => unapply_moves_apply_moves sc.moves c,
   fun _seed => unapply_moves_apply_moves _ _,
   rfl⟩

/-- C3: applying the same quarter-turn rotation (same face, same direction) four
times restores the cube exactly, for every cube and face. -/
theorem claim_C3_fourfold_closure :
    ∀ (c : RubixCube) (f : RubixCubeFaceId),
      rubix_cube_rotate_face (rubix_cube_rotate_face (rubix_cube_rotate_face
        (rubix_cube_rotate_face c f .clockwise) f .clockwise) f .clockwise)
        f .clockwise = c ∧
      rubix_cube_rotate_face (rubix_cube_rotate_face (rubix_cube_rotate_face
        (rubix_cube_rotate_face c f .counterclockwise) f .counterclockwise)
        f .counterclockwise) f .counterclockwise = c :=
  fun c f => ⟨rotate_face_four c f .clockwise, rotate_face_four c f .counterclockwise⟩

/-- C4: applying a clockwise quarter turn twice on a face yields exactly the same
cube as applying the 180-degree rotation once, for every cube and face. -/
theorem claim_C4_half_turn_equivalence :
    ∀ (c : RubixCube) (f : RubixCubeFaceId),
      rubix_cube_rotate_face (rubix_cube_rotate_face c f .clockwise) f .clockwise =
        rubix_cube_rotate_face c f .double :=
  fun c f => rotate_face_cw_cw c f

/-- C5: the seeded move generator is a pure function of (seed, n): two calls with
the same arguments give the same ordered sequence, of length n, with every move
inside the 18-element space of 6 faces times 3 amounts. -/
theorem claim_C5_generator_deterministic :
    ∀ (seed n : Nat),
      rubix_cube_generate_moves_from_seed seed n =
        rubix_cube_generate_moves_from_seed seed n ∧
      (rubix_cube_generate_moves_from_seed seed n).length = n ∧
      (rubix_cube_generate_moves_from_seed seed n).all
        (fun m => decide (m ∈ RUBIX_CUBE_ALL_MOVES)) = true ∧
      RUBIX_CUBE_ALL_MOVES.length = 18 :=
  fun seed n =>
    ⟨rfl, genMovesAux_length n seed, by
      rw [List.all_eq_true]
      intro m _
      exact decide_eq_true (move_mem_all m), rfl⟩

/-- C6: any finite sequence of face rotations conserves the multiset of non-null
sticker colors and the census of piece color-count classes; each rotation moves
every piece without changing its own non-null slot count; and on the solved
constant the classes are 8 corners with 3, 12 edges with 2, 6 centers with 1 and
one interior piece with 0. -/
theorem claim_C6_sticker_conservation :
    ∀ (c : RubixCube) (ms : List RubixCubeMove),
      rubix_cube_sticker_multiset (rubix_cube_apply_moves c ms) =
        rubix_cube_sticker_multiset c ∧
      rubix_cube_class_multiset (rubix_cube_apply_moves c ms) =
        rubix_cube_class_multiset c ∧
      (∀ (f : RubixCubeFaceId) (r : RubixCubeFaceRotation) (q : PiecePos),
        rubix_cube_piece_color_count (pieceAt (rubix_cube_rotate_face c f r) q) =
          rubix_cube_piece_color_count (pieceAt c (posSrc f r q))) ∧
      rubix_cube_class_multiset rubix_cube_generate_solved =
        ((List.replicate 8 3 ++ List.replicate 12 2 ++ List.replicate 6 1 ++ [0] :
          List Nat) : Multiset Nat) :=
  fun c ms =>
    ⟨sticker_multiset_apply_moves ms c, class_multiset_apply_moves ms c,
     fun f r q => piece_count_rotate c f r q, by decide⟩

/-- C7: calling the rotation entry point with a face identifier or rotation-amount
value outside its defined enumeration leaves the cube exactly unchanged and
signals the invalid-input condition to the caller. -/
theorem claim_C7_invalid_input_rejected :
    ∀ (c : RubixCube) (side rot : Nat), 6 < side ∨ 2 < rot →
      rubix_cube_rotate_face_raw c side rot = (c, false) := by
  intro c side rot h
  unfold rubix_cube_rotate_face_raw
  rw [if_neg]
  omega

/-- Witness for C7 at a concrete out-of-enumeration face value. -/
theorem claim_C7_witness :
    rubix_cube_rotate_face_raw rubix_cube_generate_solved 7 0 =
      (rubix_cube_generate_solved, false) :=
  claim_C7_invalid_input_rejected rubix_cube_generate_solved 7 0 (Or.inl (by decide))

/-- C8: the solved constant assigns each direction its canonical color (top white,
front red, right blue, left green, back orange, bottom yellow) or null, and each
of the six face projections of the solved cube is 9 identical squares of the
face's canonical color. -/
theorem claim_C8_solved_faces :
    (∀ (p : Fin 3) (i : Fin 9) (s : Fin 6),
      rubix_cube_generate_solved p i s = rubix_cube_canonical_color s ∨
      rubix_cube_generate_solved p i s = RubixCubeColor.null) ∧
    RUBIX_CUBE_GET_TOP_FACE rubix_cube_generate_solved = List.replicate 9 .white ∧
    RUBIX_CUBE_GET_FRONT_FACE rubix_cube_generate_solved = List.replicate 9 .red ∧
    RUBIX_CUBE_GET_RIGHT_FACE rubix_cube_generate_solved = List.replicate 9 .blue ∧
    RUBIX_CUBE_GET_LEFT_FACE rubix_cube_generate_solved = List.replicate 9 .green ∧
    RUBIX_CUBE_GET_BACK_FACE rubix_cube_generate_solved = List.replicate 9 .orange ∧
    RUBIX_CUBE_GET_BOTTOM_FACE rubix_cube_generate_solved = List.replicate 9 .yellow := by
  refine ⟨by decide, rfl, rfl, rfl, rfl, rfl, rfl⟩

/-- C9: the solved cube passes the solved check, the equivalence check is true
exactly when every piece's color array agrees pointwise, and the solved check is
the equivalence check against the solved constant. -/
theorem claim_C9_is_solved_equivalence :
    rubix_cube_is_solved rubix_cube_generate_solved = true ∧
    (∀ a b : RubixCube, rubix_cube_equivelence_check a b = true ↔
      ∀ (p : Fin 3) (i : Fin 9) (s : Fin 6), a p i s = b p i s) ∧
    (∀ c : RubixCube,
      rubix_cube_is_solved c =
        rubix_cube_equivelence_check c rubix_cube_generate_solved) := by
  refine ⟨by decide, fun a b => ?_, fun c => rfl⟩
  simp [rubix_cube_equivelence_check, List.all_eq_true, List.mem_finRange]

/-- C10: the 54 (plane, index, side) triples read by the six face macros are
pairwise distinct, each face reads exactly 9 distinct locations, on the solved
constant they cover exactly the non-null color slots, and each face getter reads
exactly its table's triples in order. -/
theorem claim_C10_face_tables :
    allFaceTriples.Nodup ∧
    (∀ f : RubixCubeFaceId, (faceTriples f).length = 9 ∧ (faceTriples f).Nodup) ∧
    (∀ (p : Fin 3) (i : Fin 9) (s : Fin 6),
      (RUBIX_CUBE_SOLVED_LITERAL p i s ≠ RubixCubeColor.null) ↔
        (p, i, s) ∈ allFaceTriples) ∧
    (∀ (c : RubixCube) (f : RubixCubeFaceId),
      rubix_cube_get_face c f = (faceTriples f).map fun t => c t.1 t.2.1 t.2.2) := by
  refine ⟨by decide, by decide, by decide, fun c f => ?_⟩
  cases f <;> rfl

end Rubix
